import Mathlib

/-!
# Verification of `run_devpi.py` (drone-devpi plugin)

Shallow embedding of the drone-devpi plugin driver (`src/run_devpi.py`).
The program validates a JSON-shaped input payload and then shells out to the
`devpi` CLI in a fixed sequence: select server, login, select index, upload.

Modelling conventions:
* Python `dict.get` on the `vargs` mapping is modelled with `Option` fields
  (`none` = key absent or JSON null) and `Option.getD`.
* An external command invocation is a pure `Command` (argv plus optional
  working directory); the exit codes the external world would produce are an
  explicit parameter `env : Nat → Int` giving the exit code of the i-th
  command issued during a run.
* `sys.exit(1)` is modelled as an `Outcome.exited 1` of the whole run, and,
  inside the `die_on_error` decorator, as the `WrappedResult.exit` value.
* Filesystem glob expansion is a pass-through to an abstract parameter
  `g : String → List String` mapping a pattern to its matches in order.
-/

namespace RunDevpi

/-- `'/tmp/devpi-clientdir'`, the module-level default clientdir constant. -/
def DEFAULT_CLIENTDIR : String := "/tmp/devpi-clientdir"

/-- The value under the `files` key may be a single string or a list of
pattern strings. -/
inductive FilesVal where
  | str (s : String)
  | list (l : List String)
deriving Repr, DecidableEq

/-- The `vargs` mapping of the plugin input: each field is `none` when the
key is absent (or its JSON value is null). -/
structure Vargs where
  server : Option String
  index : Option String
  username : Option String
  password : Option String
  files : Option FilesVal
deriving Repr, DecidableEq

/-- The plugin input payload: the `vargs` sub-object and `workspace.path`. -/
structure Payload where
  vargs : Vargs
  workspace_path : String
deriving Repr, DecidableEq

/-- One external command invocation: argv plus the optional working
directory (`cwd=` of `subprocess.Popen`; `none` for `subprocess.run` calls
that do not pass one). -/
structure Command where
  argv : List String
  cwd : Option String
deriving Repr, DecidableEq

/-- A finished external process as seen by the wrapper: its argv and its
exit code (`returncode` in Python). -/
structure Proc where
  args : List String
  returncode : Int
deriving Repr, DecidableEq

/-- Running a command under an environment that makes it exit with `code`. -/
def runCommand (c : Command) (code : Int) : Proc :=
  ⟨c.argv, code⟩

/-! ## Model of `urllib.parse.urlsplit` (scheme and netloc only)

Modelled from the spec: `urllib.parse.urlsplit` is Python standard-library
code, not part of this repository.  The spec only relies on whether the
parse yields "both a non-empty scheme and a non-empty network-location
component", so we model the scheme/netloc extraction of `urlsplit`: a
scheme is a non-empty ASCII-letter-initial run of letters, digits, `+`,
`-`, `.` before the first `:`; the netloc is the run after a leading `//`
up to the next `/`, `?` or `#`.  (Control-character stripping performed by
recent CPython versions is not modelled; it does not affect the claims.) -/

/-- Characters allowed in a URI scheme after the initial letter. -/
def schemeChar (c : Char) : Bool :=
  c.isAlphanum || c = '+' || c = '-' || c = '.'

/-- Split a character list at the first `:`; `none` when there is no `:`. -/
def splitAtColon : List Char → Option (List Char × List Char)
  | [] => none
  | c :: cs =>
    if c = ':' then some ([], cs)
    else
      match splitAtColon cs with
      | none => none
      | some (pre, post) => some (c :: pre, post)

/-- The netloc is everything up to the next `/`, `?` or `#`. -/
def netlocEnd (c : Char) : Bool :=
  c = '/' || c = '?' || c = '#'

/-- The components of a split URL that `check_vargs` looks at. -/
structure SplitResult where
  scheme : String
  netloc : String
  rest : String
deriving Repr, DecidableEq

/-- Scheme/netloc extraction of `urllib.parse.urlsplit`. -/
def urlsplit (url : String) : SplitResult :=
  let cs := url.data
  let p :=
    match splitAtColon cs with
    | some (pre, post) =>
      match pre with
      | [] => (([] : List Char), cs)
      | c0 :: rest0 =>
        if c0.isAlpha && rest0.all schemeChar then
          (pre.map Char.toLower, post)
        else (([] : List Char), cs)
    | none => (([] : List Char), cs)
  match p.2 with
  | '/' :: '/' :: tail =>
    ⟨String.mk p.1, String.mk (tail.takeWhile (fun c => !netlocEnd c)),
      String.mk (tail.dropWhile (fun c => !netlocEnd c))⟩
  | _ => ⟨String.mk p.1, "", String.mk p.2⟩

/-! ## The validator `check_vargs` -/

/-- Python truthiness of an optional string: `None` and `''` are falsy. -/
def truthy : Option String → Bool
  | none => false
  | some s => s != ""

/-- What `check_vargs` does: return normally, or print one diagnostic and
`sys.exit(1)`. -/
inductive CheckResult where
  | ok
  | fail (msg : String)
deriving Repr, DecidableEq

/-- Diagnostic printed when the server URI is missing or malformed. -/
def serverMsg : String :=
  "You must specify the full, absolute URI to your devpi server (including protocol)."

/-- Diagnostic printed when the index is missing or empty. -/
def indexMsg : String :=
  "You must specify an index on your devpi server to upload to."

/-- Diagnostic printed when the username is missing or empty. -/
def usernameMsg : String :=
  "You must specify a username to upload packages as."

/-- Diagnostic printed when the password key is missing or null. -/
def passwordMsg : String :=
  "You must specify a password."

/-- `check_vargs(vargs)`: `vargs.get('server', '')` is parsed with
`urlsplit` and both scheme and netloc must be truthy; then `index` and
`username` must be truthy; then `password` must not be `None` (empty string
accepted). The first failing check prints and exits with code 1. -/
def check_vargs (v : Vargs) : CheckResult :=
  let parsed := urlsplit (v.server.getD "")
  if parsed.scheme = "" ∨ parsed.netloc = "" then .fail serverMsg
  else if !truthy v.index then .fail indexMsg
  else if !truthy v.username then .fail usernameMsg
  else if v.password = none then .fail passwordMsg
  else .ok

/-! ## The `die_on_error` decorator

```
def wrapped(*args, **kwargs):
    result = f(*args, **kwargs)
    if result.returncode == 1:
        sys.exit(1)
```
The wrapper has no `return` statement, so when it does not exit it returns
Python's `None` — the wrapped function's own return value is discarded. -/

/-- Result of calling a `die_on_error`-decorated step: either the whole
process exits (`sys.exit(1)`), or the call returns a value — always `none`
(Python `None`), never the process handle the body produced. -/
inductive WrappedResult where
  | exit (code : Int)
  | value (v : Option Proc)
deriving Repr, DecidableEq

/-- The body of `die_on_error`'s `wrapped`, applied to the process `result`
that the decorated function's body returned. -/
def die_on_error (result : Proc) : WrappedResult :=
  if result.returncode = 1 then .exit 1 else .value none

/-! ## The four step bodies

Each step body builds one argv and hands it to `subprocess.run` /
`subprocess.Popen`.  The pure content of each body is the `Command` below;
the exit code the external world assigns is supplied separately. -/

/-- `select_server(server, clientdir)`:
`devpi use --clientdir <clientdir> <server>`. -/
def select_server (server clientdir : String) : Command :=
  ⟨["devpi", "use", "--clientdir", clientdir, server], none⟩

/-- `login(username, password, clientdir)`:
`devpi login --clientdir <clientdir> <username> --password <password>`. -/
def login (username password clientdir : String) : Command :=
  ⟨["devpi", "login", "--clientdir", clientdir, username, "--password", password], none⟩

/-- `select_index(index, clientdir)`:
`devpi use --clientdir <clientdir> <index>`. -/
def select_index (index clientdir : String) : Command :=
  ⟨["devpi", "use", "--clientdir", clientdir, index], none⟩

/-- `create_index(index, clientdir)`:
`devpi index --clientdir <clientdir> -c <index>` (defined in the source but
never called by `main`). -/
def create_index (index clientdir : String) : Command :=
  ⟨["devpi", "index", "--clientdir", clientdir, "-c", index], none⟩

/-! ## `expand_files` and `upload_package` -/

/-- Model of `os.path.join(a, b)` for POSIX paths: an absolute `b` replaces
`a`; otherwise the parts are joined with exactly one `/`.  (Standard-library
collaborator, modelled from its documented two-argument behavior.) -/
def os_path_join (a b : String) : String :=
  match b.data with
  | '/' :: _ => b
  | _ =>
    if a = "" then b
    else
      match a.data.getLast? with
      | some '/' => a ++ b
      | _ => a ++ "/" ++ b

/-- `expand_files(path, patterns)`: a single string becomes a one-element
list; each pattern is joined with `path` and expanded via `glob`, and every
match is appended to the accumulating list.  `g` is the filesystem glob
(pass-through collaborator): it maps a joined pattern to its matches in
glob order. -/
def expand_files (g : String → List String) (path : String) (patterns : FilesVal) :
    List String :=
  let pats :=
    match patterns with
    | .str s => [s]
    | .list l => l
  pats.foldl (fun files pattern => files ++ g (os_path_join path pattern)) []

/-- Python truthiness of the `files` argument of `upload_package`:
`None`, `''` and `[]` are falsy. -/
def filesTruthy : Option FilesVal → Bool
  | none => false
  | some (.str s) => s != ""
  | some (.list l) => !l.isEmpty

/-- The fixed leading argv of the upload command. -/
def uploadBase (clientdir : String) : List String :=
  ["devpi", "upload", "--clientdir", clientdir, "--from-dir", "--no-vcs"]

/-- Body of `upload_package(path, clientdir, files)`: the base upload argv,
extended with `expand_files(path, files)` when `files` is truthy, run with
`cwd=path`. -/
def upload_package (g : String → List String) (path clientdir : String)
    (files : Option FilesVal) : Command :=
  let cmd := uploadBase clientdir
  let cmd :=
    if filesTruthy files then cmd ++ expand_files g path (files.getD (.list []))
    else cmd
  ⟨cmd, some path⟩

/-! ## The decorated steps

All five step functions in the source carry `@die_on_error`, including
`upload_package` (line 94).  Each decorated step, given the exit code the
external command produced, either exits the process or returns `None`. -/

/-- Decorated `select_server`. -/
def select_server_step (server clientdir : String) (code : Int) : WrappedResult :=
  die_on_error (runCommand (select_server server clientdir) code)

/-- Decorated `login`. -/
def login_step (username password clientdir : String) (code : Int) : WrappedResult :=
  die_on_error (runCommand (login username password clientdir) code)

/-- Decorated `select_index`. -/
def select_index_step (index clientdir : String) (code : Int) : WrappedResult :=
  die_on_error (runCommand (select_index index clientdir) code)

/-- Decorated `upload_package`. -/
def upload_package_step (g : String → List String) (path clientdir : String)
    (files : Option FilesVal) (code : Int) : WrappedResult :=
  die_on_error (runCommand (upload_package g path clientdir files) code)

/-! ## The driver `main` -/

/-- How a run of `main` ends: `sys.exit(code)`, normal completion, or an
uncaught Python exception (unreachable in the modelled paths, see
`runMain`). -/
inductive Outcome where
  | exited (code : Int)
  | completed
  | crashed
deriving Repr, DecidableEq

/-- A run of `main`: the external commands issued, in order, and how the
run ended. -/
structure RunResult where
  commands : List Command
  outcome : Outcome
deriving Repr, DecidableEq

/-- The straight-line part of `main` after `check_vargs` has returned:
the four decorated step calls, each issuing its command and consulting
`die_on_error` before the next runs.  `env i` is the exit code of the i-th
issued command. -/
def mainSteps (g : String → List String) (path server username password index : String)
    (files : Option FilesVal) (env : Nat → Int) : RunResult :=
  let c0 := select_server server DEFAULT_CLIENTDIR
  match select_server_step server DEFAULT_CLIENTDIR (env 0) with
  | .exit c => ⟨[c0], .exited c⟩
  | .value _ =>
    let c1 := login username password DEFAULT_CLIENTDIR
    match login_step username password DEFAULT_CLIENTDIR (env 1) with
    | .exit c => ⟨[c0, c1], .exited c⟩
    | .value _ =>
      let c2 := select_index index DEFAULT_CLIENTDIR
      match select_index_step index DEFAULT_CLIENTDIR (env 2) with
      | .exit c => ⟨[c0, c1, c2], .exited c⟩
      | .value _ =>
        let c3 := upload_package g path DEFAULT_CLIENTDIR files
        match upload_package_step g path DEFAULT_CLIENTDIR files (env 3) with
        | .exit c => ⟨[c0, c1, c2, c3], .exited c⟩
        | .value _ => ⟨[c0, c1, c2, c3], .completed⟩

/-- `main()`: run `check_vargs` (which exits with code 1 on bad input,
before any command is issued), then the four steps with the fields read by
direct key access (`vargs['server']` etc.; a `KeyError` there would crash —
the `crashed` branch — but `check_vargs` passing guarantees the keys are
present, see `check_vargs_ok_fields`). -/
def runMain (g : String → List String) (p : Payload) (env : Nat → Int) : RunResult :=
  match check_vargs p.vargs with
  | .fail _ => ⟨[], .exited 1⟩
  | .ok =>
    match p.vargs.server, p.vargs.username, p.vargs.password, p.vargs.index with
    | some server, some username, some password, some index =>
      mainSteps g p.workspace_path server username password index p.vargs.files env
    | _, _, _, _ => ⟨[], .crashed⟩

/-! ## Helper lemmas -/

/-- `urlsplit` of the empty string: no scheme, no netloc. -/
theorem urlsplit_empty : urlsplit "" = ⟨"", "", ""⟩ := rfl

/-- `check_vargs` succeeds exactly when every check passes. -/
theorem check_vargs_ok_iff (v : Vargs) :
    check_vargs v = .ok ↔
      ¬((urlsplit (v.server.getD "")).scheme = "" ∨ (urlsplit (v.server.getD "")).netloc = "")
        ∧ truthy v.index = true ∧ truthy v.username = true ∧ v.password ≠ none := by
  by_cases h1 : (urlsplit (v.server.getD "")).scheme = "" ∨ (urlsplit (v.server.getD "")).netloc = "" <;>
    by_cases h2 : truthy v.index <;> by_cases h3 : truthy v.username <;>
    by_cases h4 : v.password = none <;>
    simp [check_vargs, h1, h2, h3, h4]

/-- When `check_vargs` passes, all four keys were present in the mapping
(`main`'s subsequent direct key accesses cannot raise). -/
theorem check_vargs_ok_fields (v : Vargs) (h : check_vargs v = .ok) :
    (∃ s, v.server = some s) ∧ (∃ s, v.index = some s)
      ∧ (∃ s, v.username = some s) ∧ (∃ s, v.password = some s) := by
  rw [check_vargs_ok_iff] at h
  obtain ⟨h1, h2, h3, h4⟩ := h
  refine ⟨?_, ?_, ?_, ?_⟩
  · cases hs : v.server with
    | none => rw [hs] at h1; exact absurd (Or.inl rfl) h1
    | some s => exact ⟨s, rfl⟩
  · cases hs : v.index with
    | none => rw [hs] at h2; exact absurd h2 (by simp [truthy])
    | some s => exact ⟨s, rfl⟩
  · cases hs : v.username with
    | none => rw [hs] at h3; exact absurd h3 (by simp [truthy])
    | some s => exact ⟨s, rfl⟩
  · cases hs : v.password with
    | none => exact absurd hs h4
    | some s => exact ⟨s, rfl⟩

/-- `runMain` on a payload that passes validation runs the four steps. -/
theorem runMain_ok (g : String → List String) (p : Payload) (env : Nat → Int)
    (server username password index : String)
    (hs : p.vargs.server = some server) (hu : p.vargs.username = some username)
    (hp : p.vargs.password = some password) (hi : p.vargs.index = some index)
    (hok : check_vargs p.vargs = .ok) :
    runMain g p env
      = mainSteps g p.workspace_path server username password index p.vargs.files env := by
  unfold runMain
  rw [hok, hs, hu, hp, hi]

/-- The four-step sequence, unfolded into its exit-code case split: each
step issues its command, and `die_on_error` ends the run with exit code 1
exactly when the step's command exited with code 1. -/
theorem mainSteps_eq (g : String → List String) (path server username password index : String)
    (files : Option FilesVal) (env : Nat → Int) :
    mainSteps g path server username password index files env =
      if env 0 = 1 then ⟨[select_server server DEFAULT_CLIENTDIR], .exited 1⟩
      else if env 1 = 1 then
        ⟨[select_server server DEFAULT_CLIENTDIR, login username password DEFAULT_CLIENTDIR],
          .exited 1⟩
      else if env 2 = 1 then
        ⟨[select_server server DEFAULT_CLIENTDIR, login username password DEFAULT_CLIENTDIR,
          select_index index DEFAULT_CLIENTDIR], .exited 1⟩
      else if env 3 = 1 then
        ⟨[select_server server DEFAULT_CLIENTDIR, login username password DEFAULT_CLIENTDIR,
          select_index index DEFAULT_CLIENTDIR, upload_package g path DEFAULT_CLIENTDIR files],
          .exited 1⟩
      else
        ⟨[select_server server DEFAULT_CLIENTDIR, login username password DEFAULT_CLIENTDIR,
          select_index index DEFAULT_CLIENTDIR, upload_package g path DEFAULT_CLIENTDIR files],
          .completed⟩ := by
  by_cases h0 : env 0 = 1 <;> by_cases h1 : env 1 = 1 <;> by_cases h2 : env 2 = 1 <;>
    by_cases h3 : env 3 = 1 <;>
    simp [mainSteps, select_server_step, login_step, select_index_step, upload_package_step,
      die_on_error, runCommand, h0, h1, h2, h3]

/-- The `for` loop of `expand_files`, as a single concatenation. -/
theorem expand_files_foldl (g : String → List String) (path : String)
    (pats acc : List String) :
    pats.foldl (fun files pattern => files ++ g (os_path_join path pattern)) acc
      = acc ++ (pats.map fun pattern => g (os_path_join path pattern)).flatten := by
  induction pats generalizing acc with
  | nil => simp
  | cons q qs ih => simp [ih, List.append_assoc]

/-- `expand_files` on a list of patterns is the concatenation of the glob
expansions, in pattern order then match order. -/
theorem expand_files_flatten (g : String → List String) (path : String)
    (pats : List String) :
    expand_files g path (.list pats)
      = (pats.map fun pattern => g (os_path_join path pattern)).flatten := by
  simp [expand_files, expand_files_foldl]

/-! ## Claims -/

/-- C1 (counterexample): the claim says the upload step never forces
termination on a non-zero exit code, but `upload_package` is decorated
with `@die_on_error` (line 94): with exit code 1 — a non-zero code — the
decorated upload step performs `sys.exit(1)` instead of returning. -/
theorem upload_step_dies_on_exit_one :
    (1 : Int) ≠ 0
    ∧ upload_package_step (fun _ => []) "/workspace" DEFAULT_CLIENTDIR none 1 = .exit 1 :=
  ⟨by decide, rfl⟩

/-- C1 (amended): the upload step applies the same die-on-error policy as
the three checked setup steps: the wrapping process is forced to terminate
with exit code 1 exactly when the external upload command exits with code
1; any other exit code (zero or not) returns normally (with `None`). -/
theorem upload_step_die_policy (g : String → List String) (path clientdir : String)
    (files : Option FilesVal) (code : Int) :
    upload_package_step g path clientdir files code
      = if code = 1 then .exit 1 else .value none := rfl

/-- C6: for a non-empty list of patterns, the upload argv is the fixed base
followed by the concatenation, in pattern order then glob match order, of
the glob expansions of each pattern joined with the workspace path
(duplicates across patterns retained, since it is a plain concatenation);
and a single string behaves as the one-element list containing it. -/
theorem upload_args_concat (g : String → List String) (path clientdir s : String)
    (pats : List String) (hne : pats ≠ []) (hs : s ≠ "") :
    (upload_package g path clientdir (some (.list pats))).argv
      = uploadBase clientdir ++ (pats.map fun pattern => g (os_path_join path pattern)).flatten
    ∧ expand_files g path (.str s) = expand_files g path (.list [s])
    ∧ upload_package g path clientdir (some (.str s))
      = upload_package g path clientdir (some (.list [s])) := by
  refine ⟨?_, ?_, ?_⟩
  · simp [upload_package, filesTruthy, hne, expand_files_flatten]
  · rfl
  · simp only [upload_package, filesTruthy, hs, bne_iff_ne, ne_eq, not_false_eq_true,
      if_true, Option.getD_some]
    rfl

/-- C6 witness: `files=["*.whl"]` over a workspace whose glob matches
`a.whl` and `b.whl` appends exactly those two paths, and `files="*.whl"`
behaves as `files=["*.whl"]`. -/
theorem upload_args_concat_witness :
    (upload_package (fun q => if q = "/ws/*.whl" then ["/ws/a.whl", "/ws/b.whl"] else [])
        "/ws" DEFAULT_CLIENTDIR (some (.list ["*.whl"]))).argv
      = uploadBase DEFAULT_CLIENTDIR
        ++ ((["*.whl"] : List String).map fun pattern =>
            (fun q => if q = "/ws/*.whl" then ["/ws/a.whl", "/ws/b.whl"] else ([] : List String))
              (os_path_join "/ws" pattern)).flatten
    ∧ expand_files (fun q => if q = "/ws/*.whl" then ["/ws/a.whl", "/ws/b.whl"] else [])
        "/ws" (.str "*.whl")
      = expand_files (fun q => if q = "/ws/*.whl" then ["/ws/a.whl", "/ws/b.whl"] else [])
        "/ws" (.list ["*.whl"])
    ∧ upload_package (fun q => if q = "/ws/*.whl" then ["/ws/a.whl", "/ws/b.whl"] else [])
        "/ws" DEFAULT_CLIENTDIR (some (.str "*.whl"))
      = upload_package (fun q => if q = "/ws/*.whl" then ["/ws/a.whl", "/ws/b.whl"] else [])
        "/ws" DEFAULT_CLIENTDIR (some (.list ["*.whl"])) :=
  upload_args_concat (fun q => if q = "/ws/*.whl" then ["/ws/a.whl", "/ws/b.whl"] else [])
    "/ws" DEFAULT_CLIENTDIR "*.whl" ["*.whl"] (by decide) (by decide)

/-- C7: with `files` absent (`None`) or the empty list, the upload step's
command is exactly `devpi upload --clientdir <clientdir> --from-dir
--no-vcs`, with no trailing file arguments, run with `cwd` set to the
workspace path. -/
theorem upload_no_files (g : String → List String) (path clientdir : String) :
    upload_package g path clientdir none
        = ⟨["devpi", "upload", "--clientdir", clientdir, "--from-dir", "--no-vcs"], some path⟩
    ∧ upload_package g path clientdir (some (.list []))
        = ⟨["devpi", "upload", "--clientdir", clientdir, "--from-dir", "--no-vcs"], some path⟩ :=
  ⟨rfl, rfl⟩

/-- C8: the body of `upload_package` produces the process handle with the
command's exit code in its `returncode` field, but the `die_on_error`
decorator's wrapper has no return statement, so the decorated
`upload_package` — evaluated here at the failing input (upload command
completing with exit code 0) — returns `None`, not the handle, contradicting
its own `:rtype: subprocess.CompletedProcess` docstring. -/
theorem upload_step_returns_none :
    (runCommand (upload_package (fun _ => []) "/workspace" DEFAULT_CLIENTDIR none) 0).returncode
        = 0
    ∧ upload_package_step (fun _ => []) "/workspace" DEFAULT_CLIENTDIR none 0 = .value none :=
  ⟨rfl, rfl⟩

/-- C10: a non-empty pattern list none of whose patterns matches anything
expands to `[]`, so the issued upload command is identical to the one
issued with `files` absent — the `--from-dir` whole-workspace upload. -/
theorem no_match_falls_back (g : String → List String) (path clientdir : String)
    (pats : List String) (hne : pats ≠ [])
    (hmatch : ∀ pat, pat ∈ pats → g (os_path_join path pat) = []) :
    upload_package g path clientdir (some (.list pats))
      = upload_package g path clientdir none := by
  have hexp : expand_files g path (.list pats) = [] := by
    rw [expand_files_flatten]
    simp only [List.flatten_eq_nil_iff, List.mem_map]
    rintro l ⟨pat, hpat, rfl⟩
    exact hmatch pat hpat
  simp [upload_package, filesTruthy, hne, hexp]

/-- C10 witness: `files=["*.whl"]` with a glob that matches nothing issues
the same command as `files` absent. -/
theorem no_match_falls_back_witness :
    upload_package (fun _ => []) "/ws" DEFAULT_CLIENTDIR (some (.list ["*.whl"]))
      = upload_package (fun _ => []) "/ws" DEFAULT_CLIENTDIR none :=
  no_match_falls_back (fun _ => []) "/ws" DEFAULT_CLIENTDIR ["*.whl"] (by decide)
    (fun _ _ => rfl)

/-- C2: for each checked step i (0 = select-server, 1 = login,
2 = select-index), with every earlier step not having exited: if the step's
external exit code is exactly 1 the run terminates immediately with exit
code 1 having issued only the first i+1 commands, and if the exit code is
anything other than 1 (0, 2, ...) the step is not treated as failure — the
next command is issued regardless. -/
theorem checked_steps_die_exactly_on_one (g : String → List String) (p : Payload)
    (env : Nat → Int) (server username password index : String)
    (hs : p.vargs.server = some server) (hu : p.vargs.username = some username)
    (hp : p.vargs.password = some password) (hi : p.vargs.index = some index)
    (hok : check_vargs p.vargs = .ok)
    (i : Nat) (hilt : i < 3) (hprev : ∀ j, j < i → env j ≠ 1) :
    (env i = 1 →
        (runMain g p env).commands.length = i + 1
          ∧ (runMain g p env).outcome = .exited 1)
    ∧ (env i ≠ 1 → i + 2 ≤ (runMain g p env).commands.length) := by
  rw [runMain_ok g p env server username password index hs hu hp hi hok, mainSteps_eq]
  interval_cases i
  · constructor
    · intro h1; simp [h1]
    · intro h1
      rw [if_neg h1]
      split_ifs <;> simp
  · have h0 : env 0 ≠ 1 := hprev 0 (by omega)
    constructor
    · intro h1; simp [if_neg h0, h1]
    · intro h1
      rw [if_neg h0, if_neg h1]
      split_ifs <;> simp
  · have h0 : env 0 ≠ 1 := hprev 0 (by omega)
    have h1 : env 1 ≠ 1 := hprev 1 (by omega)
    constructor
    · intro h2; simp [if_neg h0, if_neg h1, h2]
    · intro h2
      rw [if_neg h0, if_neg h1, if_neg h2]
      split_ifs <;> simp

/-- C2 witness: a valid payload whose login command (step 1) exits with
code 1, after a select-server command that exited 0: the run stops after
exactly two issued commands with exit code 1. -/
theorem checked_steps_die_exactly_on_one_witness :
    (runMain (fun _ => [])
        ⟨⟨some "http://h", some "root/dev", some "u", some "p", none⟩, "/ws"⟩
        (fun j => if j = 1 then 1 else 0)).commands.length = 1 + 1
    ∧ (runMain (fun _ => [])
        ⟨⟨some "http://h", some "root/dev", some "u", some "p", none⟩, "/ws"⟩
        (fun j => if j = 1 then 1 else 0)).outcome = .exited 1 :=
  (checked_steps_die_exactly_on_one (fun _ => [])
      ⟨⟨some "http://h", some "root/dev", some "u", some "p", none⟩, "/ws"⟩
      (fun j => if j = 1 then 1 else 0) "http://h" "u" "p" "root/dev"
      rfl rfl rfl rfl (by decide) 1 (by decide)
      (fun j hj => by
        have hj0 : j = 0 := by omega
        subst hj0
        decide)).1 rfl

/-- C3: on any input mapping missing `server`, `index`, `username` or
`password`, or whose server URI lacks a scheme or a network location, the
run exits with code 1 having issued no external command at all (the
validator runs before the first command and exits on failure). -/
theorem invalid_input_no_commands (g : String → List String) (p : Payload)
    (env : Nat → Int)
    (h : p.vargs.server = none ∨ p.vargs.index = none ∨ p.vargs.username = none
        ∨ p.vargs.password = none
        ∨ (urlsplit (p.vargs.server.getD "")).scheme = ""
        ∨ (urlsplit (p.vargs.server.getD "")).netloc = "") :
    runMain g p env = ⟨[], .exited 1⟩ := by
  have hne : check_vargs p.vargs ≠ .ok := by
    intro hok
    have hf := check_vargs_ok_fields _ hok
    rw [check_vargs_ok_iff] at hok
    obtain ⟨h1, h2, h3, h4⟩ := hok
    rcases h with h | h | h | h | h | h
    · rw [h] at h1; exact h1 (Or.inl rfl)
    · rw [h] at h2; exact absurd h2 (by simp [truthy])
    · rw [h] at h3; exact absurd h3 (by simp [truthy])
    · exact h4 h
    · exact h1 (Or.inl h)
    · exact h1 (Or.inr h)
  cases hc : check_vargs p.vargs with
  | fail m => simp [runMain, hc]
  | ok => exact absurd hc hne

/-- C3 witness: a payload with a good server but no `index` key exits with
code 1 and issues no command. -/
theorem invalid_input_no_commands_witness :
    runMain (fun _ => []) ⟨⟨some "http://h", none, some "u", some "p", none⟩, "/ws"⟩
        (fun _ => 0)
      = ⟨[], .exited 1⟩ :=
  invalid_input_no_commands (fun _ => [])
    ⟨⟨some "http://h", none, some "u", some "p", none⟩, "/ws"⟩ (fun _ => 0)
    (Or.inr (Or.inl rfl))

/-- C4: on a fully valid payload, when no checked step's command exits with
code 1, the run issues exactly four commands, in order: use(server),
login(username, password), use(index), upload — and no issued command is
ever the create-index command `devpi index -c`. -/
theorem driver_issues_four_commands (g : String → List String) (p : Payload)
    (env : Nat → Int) (server username password index : String)
    (hs : p.vargs.server = some server) (hu : p.vargs.username = some username)
    (hp : p.vargs.password = some password) (hi : p.vargs.index = some index)
    (hok : check_vargs p.vargs = .ok)
    (henv : ∀ j, j < 3 → env j ≠ 1) :
    (runMain g p env).commands
      = [select_server server DEFAULT_CLIENTDIR,
         login username password DEFAULT_CLIENTDIR,
         select_index index DEFAULT_CLIENTDIR,
         upload_package g p.workspace_path DEFAULT_CLIENTDIR p.vargs.files]
    ∧ ∀ idx d, create_index idx d ∉ (runMain g p env).commands := by
  rw [runMain_ok g p env server username password index hs hu hp hi hok, mainSteps_eq]
  rw [if_neg (henv 0 (by omega)), if_neg (henv 1 (by omega)), if_neg (henv 2 (by omega))]
  constructor
  · split_ifs <;> rfl
  · intro idx d
    split_ifs <;>
      simp [create_index, select_server, login, select_index, upload_package]

/-- C4 witness: a concrete valid payload with all commands succeeding
issues exactly the four commands, and never the create-index command. -/
theorem driver_issues_four_commands_witness :
    (runMain (fun _ => [])
        ⟨⟨some "http://h", some "root/dev", some "u", some "p", none⟩, "/ws"⟩
        (fun _ => 0)).commands
      = [select_server "http://h" DEFAULT_CLIENTDIR,
         login "u" "p" DEFAULT_CLIENTDIR,
         select_index "root/dev" DEFAULT_CLIENTDIR,
         upload_package (fun _ => []) "/ws" DEFAULT_CLIENTDIR none]
    ∧ create_index "root/dev" DEFAULT_CLIENTDIR
        ∉ (runMain (fun _ => [])
            ⟨⟨some "http://h", some "root/dev", some "u", some "p", none⟩, "/ws"⟩
            (fun _ => 0)).commands :=
  ⟨(driver_issues_four_commands (fun _ => [])
      ⟨⟨some "http://h", some "root/dev", some "u", some "p", none⟩, "/ws"⟩
      (fun _ => 0) "http://h" "u" "p" "root/dev" rfl rfl rfl rfl (by decide)
      (fun j hj => by simp)).1,
   (driver_issues_four_commands (fun _ => [])
      ⟨⟨some "http://h", some "root/dev", some "u", some "p", none⟩, "/ws"⟩
      (fun _ => 0) "http://h" "u" "p" "root/dev" rfl rfl rfl rfl (by decide)
      (fun j hj => by simp)).2 "root/dev" DEFAULT_CLIENTDIR⟩

/-- C5: the validator checks server, then index, then username, then
password; the first failing check yields its own diagnostic and exits with
code 1 without evaluating later checks (their messages never show); index
and username must be present and non-empty, while any present password —
the empty string included — is accepted, so all checks passing returns
normally. -/
theorem check_vargs_order (v : Vargs) :
    ((urlsplit (v.server.getD "")).scheme = "" ∨ (urlsplit (v.server.getD "")).netloc = "" →
        check_vargs v = .fail serverMsg)
    ∧ (¬((urlsplit (v.server.getD "")).scheme = "" ∨ (urlsplit (v.server.getD "")).netloc = "") →
        truthy v.index = false → check_vargs v = .fail indexMsg)
    ∧ (¬((urlsplit (v.server.getD "")).scheme = "" ∨ (urlsplit (v.server.getD "")).netloc = "") →
        truthy v.index = true → truthy v.username = false →
        check_vargs v = .fail usernameMsg)
    ∧ (¬((urlsplit (v.server.getD "")).scheme = "" ∨ (urlsplit (v.server.getD "")).netloc = "") →
        truthy v.index = true → truthy v.username = true → v.password = none →
        check_vargs v = .fail passwordMsg)
    ∧ (∀ s, ¬((urlsplit (v.server.getD "")).scheme = "" ∨ (urlsplit (v.server.getD "")).netloc = "") →
        truthy v.index = true → truthy v.username = true → v.password = some s →
        check_vargs v = .ok) := by
  refine ⟨fun h1 => ?_, fun h1 h2 => ?_, fun h1 h2 h3 => ?_, fun h1 h2 h3 h4 => ?_,
    fun s h1 h2 h3 h4 => ?_⟩
  · simp [check_vargs, h1]
  · simp [check_vargs, h1, h2]
  · simp [check_vargs, h1, h2, h3]
  · simp [check_vargs, h1, h2, h3, h4]
  · simp [check_vargs, h1, h2, h3, h4]

/-- C5 witness: with a well-formed server, non-empty index and username,
and an empty-string password, the validator returns normally (empty
password accepted; no later check fires). -/
theorem check_vargs_order_witness :
    check_vargs ⟨some "http://h", some "root/dev", some "u", some "", none⟩ = .ok :=
  (check_vargs_order ⟨some "http://h", some "root/dev", some "u", some "", none⟩).2.2.2.2
    "" (by decide) rfl rfl rfl

/-- C9: the validator is total over arbitrary mappings — it never raises
from key access: on every input it either returns normally or produces
exactly one diagnostic with exit code 1; and a missing `server` key is read
back as the empty string (`vargs.get('server', '')`), which fails the URI
check with the server diagnostic. -/
theorem check_vargs_total (v : Vargs) :
    (check_vargs v = .ok ∨ ∃ m, check_vargs v = .fail m)
    ∧ (v.server = none →
        check_vargs v = .fail serverMsg
        ∧ check_vargs ⟨some "", v.index, v.username, v.password, v.files⟩
            = .fail serverMsg) := by
  constructor
  · cases h : check_vargs v with
    | ok => exact Or.inl rfl
    | fail m => exact Or.inr ⟨m, rfl⟩
  · intro h
    obtain ⟨sv, ix, un, pw, fs⟩ := v
    have h' : sv = none := h
    subst h'
    exact ⟨rfl, rfl⟩

/-- C9 witness: a mapping with no `server` key fails with the server
diagnostic, identically to one whose server is the empty string. -/
theorem check_vargs_total_witness :
    check_vargs ⟨none, some "root/dev", some "u", some "p", none⟩ = .fail serverMsg
    ∧ check_vargs ⟨some "", some "root/dev", some "u", some "p", none⟩ = .fail serverMsg :=
  (check_vargs_total ⟨none, some "root/dev", some "u", some "p", none⟩).2 rfl

end RunDevpi
